import Mathlib

/-!
Verification of the `ui-test-rs` command-line scaffold.

The repository consists of a clap-derived CLI struct and a `main` function
(src/main.rs) plus an error enum (src/error.rs).  `main` parses the
arguments, optionally prints a verbose header, then either prints a dry-run
preview line and returns, or prints a "Running tests at" banner followed by a
fixed not-yet-implemented notice, and returns `Ok(())` (process exit code 0).
No test discovery, no backend connection and no test execution happen.

The embedding below models:
* `Cli` — the parsed options (test path, verbose, dry-run);
* `parseArgs` — clap's handling of the flags declared on `Cli`:
  `--verbose`/`-v`, `--dry-run`/`-n`, the auto-generated `--help`/`-h` and
  `--version`/`-V`, and one optional positional TEST_PATH defaulting to ".".
  Any other dash-argument or a second positional is an error; clap reports
  it on stderr and exits with code 2.  (The `--` positional escape and
  combined short flags like `-vn` are not modelled; no claim touches them.)
* `Line` — one constructor per `println!` site of `main`, with `render`
  giving the exact text printed;
* `runCli` / `program` — the observable behaviour of `main`: stdout lines,
  exit code, and a trace of external actions (discovery, session opening,
  step execution), which is empty because `main` performs none.
-/

/-- Command-line options parsed by clap: the `Cli` struct in src/main.rs.
`test_path` is the TEST_PATH positional (default "."), `verbose` is
`--verbose`/`-v`, `dry_run` is `--dry-run`/`-n`. -/
structure Cli where
  test_path : String
  verbose : Bool
  dry_run : Bool
deriving Repr, DecidableEq

/-- Outcome of clap argument parsing: a parsed `Cli`, a help or version
display (clap prints and exits 0), or a usage error (clap prints to stderr
and exits 2). -/
inductive ParseOutcome where
  | ok (cli : Cli)
  | help
  | version
  | error (msg : String)
deriving Repr, DecidableEq

/-- True when the argument begins with a dash character. -/
def startsWithDash (a : String) : Bool :=
  match a.data with
  | [] => false
  | c :: _ => c = '-'

/-- Model of clap parsing for the `Cli` struct of src/main.rs, scanning the
arguments left to right: `pos` is the positional seen so far, `v` and `n`
the flag states.  An unrecognised dash-argument or a second positional is a
usage error, matching clap's "unexpected argument" rejection. -/
def parseArgsGo : List String → Option String → Bool → Bool → ParseOutcome
  | [], pos, v, n => .ok ⟨pos.getD ".", v, n⟩
  | a :: rest, pos, v, n =>
    if a == "--verbose" || a == "-v" then parseArgsGo rest pos true n
    else if a == "--dry-run" || a == "-n" then parseArgsGo rest pos v true
    else if a == "--help" || a == "-h" then .help
    else if a == "--version" || a == "-V" then .version
    else if startsWithDash a && a != "-" then .error ("unexpected argument: " ++ a)
    else
      match pos with
      | none => parseArgsGo rest (some a) v n
      | some _ => .error ("unexpected argument: " ++ a)

/-- Parse a full argument list (the arguments after the program name). -/
def parseArgs (args : List String) : ParseOutcome :=
  parseArgsGo args none false false

/-- Modelled from the spec: the overall status of a TestResult
(Passed, Failed, TimedOut, Errored, Skipped).  No such type exists under
src/; it is vocabulary for stating what the scaffold does not produce. -/
inductive TestStatus where
  | Passed
  | Failed
  | TimedOut
  | Errored
  | Skipped
deriving Repr, DecidableEq

/-- Modelled from the spec: the outcome of one step.  No such type exists
under src/. -/
inductive StepResult where
  | Passed
  | Failed (reason : String)
  | TimedOut
  | Errored (cause : String)
deriving Repr, DecidableEq

/-- Modelled from the spec: a per-test result (identifier plus overall
status).  No such type exists under src/. -/
structure TestResult where
  name : String
  status : TestStatus
deriving Repr, DecidableEq

/-- Modelled from the spec: the aggregate of all TestResults of a run.
No such type exists under src/. -/
structure RunSummary where
  results : List TestResult
deriving Repr, DecidableEq

/-- External actions the engine described by the spec would perform.
The scaffold's `main` performs none of them, so every trace below is `[]`. -/
inductive EngineAction where
  | discover (path : String)
  | openSession
  | executeStep
deriving Repr, DecidableEq

/-- One stdout line printed by `main`; each constructor with a payload
corresponds to one `println!` site in src/main.rs that interpolates the test
path, the rest to fixed-text `println!` sites.  `helpText` and `versionText`
stand for the clap-generated help and version output (content modelled
opaquely; no claim depends on it). -/
inductive Line where
  | verboseEnabled
  | testPath (p : String)
  | dryRunMsg (p : String)
  | runningAt (p : String)
  | blank
  | noteNotImplemented
  | phase1
  | itemDiscovery
  | itemMcp
  | itemFormats
  | itemParallel
  | helpText
  | versionText
deriving Repr, DecidableEq

/-- The exact text of each printed line, as in the `println!` calls of
src/main.rs (`PathBuf::display` of a UTF-8 path renders the path string
itself). -/
def render : Line → String
  | .verboseEnabled => "Verbose mode enabled"
  | .testPath p => "Test path: " ++ p
  | .dryRunMsg p => "Dry-run mode: would execute tests at " ++ p
  | .runningAt p => "Running tests at: " ++ p
  | .blank => ""
  | .noteNotImplemented => "Note: Full test runner not yet implemented."
  | .phase1 => "This is Phase 1 - Foundation. Coming soon:"
  | .itemDiscovery => "  - Test discovery"
  | .itemMcp => "  - Playwright MCP integration"
  | .itemFormats => "  - Multiple output formats"
  | .itemParallel => "  - Parallel execution"
  | .helpText => "CLI tool for UI testing with Playwright MCP integration"
  | .versionText => "ui-test-rs 0.1.0"

/-- The observable behaviour of one invocation: stdout lines, stderr lines,
process exit code, the trace of external actions, and the step results and
run summary produced (none, for the scaffold). -/
structure MainResult where
  output : List Line
  errOutput : List String
  exitCode : Nat
  actions : List EngineAction
  stepResults : List StepResult
  summary : Option RunSummary
deriving Repr, DecidableEq

/-- The fixed trailer printed by the non-dry-run branch of `main`:
the "Running tests at" banner, a blank line, and the not-yet-implemented
notice. -/
def runTrailer (p : String) : List Line :=
  [Line.runningAt p, Line.blank, Line.noteNotImplemented, Line.phase1,
   Line.itemDiscovery, Line.itemMcp, Line.itemFormats, Line.itemParallel]

/-- The body of `main` in src/main.rs on successfully parsed arguments:
optional verbose header, then either the dry-run preview line (early
return) or the running banner and trailer; always returns Ok(()), hence
exit code 0.  No discovery, no session, no step is ever performed. -/
def runCli (c : Cli) : MainResult :=
  { output :=
      (if c.verbose then [Line.verboseEnabled, Line.testPath c.test_path] else [])
        ++ (if c.dry_run then [Line.dryRunMsg c.test_path] else runTrailer c.test_path),
    errOutput := [],
    exitCode := 0,
    actions := [],
    stepResults := [],
    summary := none }

/-- The whole process: clap parsing (`Cli::parse()`) followed by the body of
`main`.  On a usage error clap prints the message to stderr and exits 2; on
help/version display it prints to stdout and exits 0. -/
def program (args : List String) : MainResult :=
  match parseArgs args with
  | .ok c => runCli c
  | .help =>
      { output := [Line.helpText], errOutput := [], exitCode := 0,
        actions := [], stepResults := [], summary := none }
  | .version =>
      { output := [Line.versionText], errOutput := [], exitCode := 0,
        actions := [], stepResults := [], summary := none }
  | .error m =>
      { output := [], errOutput := [m], exitCode := 2,
        actions := [], stepResults := [], summary := none }

/-- The test results recorded in the run summary of an invocation
(empty when no summary was produced). -/
def MainResult.scheduledResults (r : MainResult) : List TestResult :=
  (r.summary.map RunSummary.results).getD []

/-- Model of std::time::Duration: seconds and subsecond nanoseconds. -/
structure Duration where
  secs : Nat
  nanos : Nat
deriving Repr, DecidableEq

/-- Rendering of a Duration used in the Timeout message (abstracts Rust's
Debug formatting of std::time::Duration; no claim depends on its shape). -/
def Duration.debugStr (d : Duration) : String :=
  toString d.secs ++ "s+" ++ toString d.nanos ++ "ns"

/-- The `UiTestError` enum of src/error.rs, one constructor per variant,
each carrying its payload. -/
inductive UiTestError where
  | Config (msg : String)
  | Discovery (msg : String)
  | PlaywrightConnection (msg : String)
  | BrowserAction (msg : String)
  | Assertion (msg : String)
  | Timeout (d : Duration)
  | Io (msg : String)
deriving Repr, DecidableEq

/-- The thiserror display message of each variant, from the `#[error(...)]`
attributes in src/error.rs. -/
def UiTestError.message : UiTestError → String
  | .Config m => "Configuration error: " ++ m
  | .Discovery m => "Test discovery failed: " ++ m
  | .PlaywrightConnection m => "Playwright MCP connection failed: " ++ m
  | .BrowserAction m => "Browser action failed: " ++ m
  | .Assertion m => "Assertion failed: " ++ m
  | .Timeout d => "Test timeout after " ++ d.debugStr
  | .Io m => "IO error: " ++ m

/-- Two string appends with distinct leading segments are distinct: if the
first `n` characters differ, the appended strings differ. -/
theorem append_ne_of_take_ne (p q s t : String) (n : Nat)
    (h1 : n ≤ p.data.length) (h2 : n ≤ q.data.length)
    (hne : p.data.take n ≠ q.data.take n) : p ++ s ≠ q ++ t := by
  intro he
  apply hne
  have hd : p.data ++ s.data = q.data ++ t.data := by
    have hc := congrArg String.data he
    simpa [String.data_append] using hc
  calc p.data.take n
      = (p.data ++ s.data).take n := (List.take_append_of_le_length h1).symm
    _ = (q.data ++ t.data).take n := by rw [hd]
    _ = q.data.take n := List.take_append_of_le_length h2

/-- C1: for every invocation whose arguments parse successfully, the exit
code is 0 iff every scheduled test result is Passed, 1 iff some scheduled
result is non-Passed, and 2 iff a configuration error occurred.  The
scaffold schedules no tests and always exits 0 after a successful parse, so
all three equivalences hold (the first vacuously, the others with both
sides false). -/
theorem c1_exit_codes (args : List String) (c : Cli)
    (h : parseArgs args = ParseOutcome.ok c) :
    ((program args).exitCode = 0 ↔
      ∀ t ∈ (program args).scheduledResults, t.status = TestStatus.Passed) ∧
    ((program args).exitCode = 1 ↔
      ∃ t ∈ (program args).scheduledResults, t.status ≠ TestStatus.Passed) ∧
    ((program args).exitCode = 2 ↔
      ∃ m, parseArgs args = ParseOutcome.error m) := by
  have hp : program args = runCli c := by simp [program, h]
  rw [hp]
  simp [runCli, MainResult.scheduledResults, h]

/-- C1 witness: the empty argument list parses successfully, and the
theorem applies to it. -/
theorem c1_exit_codes_witness :
    parseArgs [] = ParseOutcome.ok ⟨".", false, false⟩ ∧
    ((program []).exitCode = 2 ↔
      ∃ m, parseArgs [] = ParseOutcome.error m) :=
  ⟨rfl, (c1_exit_codes [] ⟨".", false, false⟩ rfl).2.2⟩

/-- C2 counterexample: on a dry-run invocation the program performs no
discovery at all (its action trace is empty) and its stdout is the single
fixed preview line, so it neither performs discovery and filtering nor
prints the selected suite's test-case names and count, contrary to the
claim. -/
theorem c2_counterexample :
    (program ["--dry-run", "tests/"]).actions = [] ∧
    EngineAction.discover "tests/" ∉ (program ["--dry-run", "tests/"]).actions ∧
    (program ["--dry-run", "tests/"]).output = [Line.dryRunMsg "tests/"] := by
  decide

/-- C2 (amended): on a dry-run invocation the program prints, after any
verbose header, exactly one preview line naming the test path, performs no
discovery, opens no session, produces no step results and no summary, and
exits 0. -/
theorem c2_dry_run (c : Cli) (h : c.dry_run = true) :
    (runCli c).output =
      (if c.verbose then [Line.verboseEnabled, Line.testPath c.test_path] else [])
        ++ [Line.dryRunMsg c.test_path] ∧
    (runCli c).actions = [] ∧
    (runCli c).stepResults = [] ∧
    (runCli c).summary = none ∧
    (runCli c).exitCode = 0 := by
  simp [runCli, h]

/-- C2 witness: the amended theorem applied to a concrete dry-run
invocation. -/
theorem c2_dry_run_witness :
    (Cli.mk "tests/" false true).dry_run = true ∧
    (runCli (Cli.mk "tests/" false true)).exitCode = 0 :=
  ⟨rfl, (c2_dry_run (Cli.mk "tests/" false true) rfl).2.2.2.2⟩

/-- C4: the scaffold is inert: for every parsed invocation it performs no
external action, produces no step results and no run summary, exits 0, and
its stdout is just the verbose header plus either the dry-run preview or
the fixed running banner and trailer. -/
theorem c4_inert_scaffold (c : Cli) :
    (runCli c).actions = [] ∧
    (runCli c).stepResults = [] ∧
    (runCli c).summary = none ∧
    (runCli c).exitCode = 0 ∧
    (runCli c).output =
      (if c.verbose then [Line.verboseEnabled, Line.testPath c.test_path] else [])
        ++ (if c.dry_run then [Line.dryRunMsg c.test_path] else runTrailer c.test_path) := by
  simp [runCli]

/-- C3 counterexample: the command line rejects the long flag given in the
claim: parsing stops with an unexpected-argument usage error and the
process exits 2 instead of accepting it. -/
theorem c3_counterexample :
    parseArgs ["--format", "json"] =
      ParseOutcome.error "unexpected argument: --format" ∧
    (program ["--format", "json"]).exitCode = 2 := by
  decide

/-- C3 (amended): the command-line interface accepts an optional TEST_PATH
positional (default ".") and the flags verbose (long and short), dry-run
(long and short), help and version; the flags for format, filter, jobs and
timeout are not implemented and are rejected as unexpected arguments with
exit code 2. -/
theorem c3_cli_surface :
    parseArgs [] = ParseOutcome.ok (Cli.mk "." false false) ∧
    parseArgs ["tests/"] = ParseOutcome.ok (Cli.mk "tests/" false false) ∧
    parseArgs ["-v"] = ParseOutcome.ok (Cli.mk "." true false) ∧
    parseArgs ["--verbose"] = ParseOutcome.ok (Cli.mk "." true false) ∧
    parseArgs ["-n"] = ParseOutcome.ok (Cli.mk "." false true) ∧
    parseArgs ["--dry-run"] = ParseOutcome.ok (Cli.mk "." false true) ∧
    parseArgs ["-v", "-n", "tests/"] = ParseOutcome.ok (Cli.mk "tests/" true true) ∧
    parseArgs ["--help"] = ParseOutcome.help ∧
    parseArgs ["--version"] = ParseOutcome.version ∧
    (program ["--format", "human"]).exitCode = 2 ∧
    (program ["--filter", "login"]).exitCode = 2 ∧
    (program ["--jobs", "4"]).exitCode = 2 ∧
    (program ["--timeout", "30s"]).exitCode = 2 := by
  decide

/-- C5: an invocation whose command line fails to parse (a configuration
error) is fatal before any test: clap exits with code 2 and no action, no
step result and no summary is produced. -/
theorem c5_parse_error_fatal (args : List String) (m : String)
    (h : parseArgs args = ParseOutcome.error m) :
    (program args).exitCode = 2 ∧
    (program args).actions = [] ∧
    (program args).stepResults = [] ∧
    (program args).summary = none := by
  simp [program, h]

/-- C5 witness: a concrete bad flag produces a parse error, and the theorem
applies to it. -/
theorem c5_parse_error_fatal_witness :
    parseArgs ["--bogus"] = ParseOutcome.error "unexpected argument: --bogus" ∧
    (program ["--bogus"]).exitCode = 2 :=
  ⟨by decide,
   (c5_parse_error_fatal ["--bogus"] "unexpected argument: --bogus" (by decide)).1⟩

/-- C6: the error enum keeps configuration, discovery, backend-connection,
assertion and timeout errors as separate classes: each renders with its own
message template (carrying its payload), the message texts of any two
distinct classes never coincide whatever the payloads, and a Timeout value
is never an Assertion value. -/
theorem c6_error_taxonomy :
    (∀ m, UiTestError.message (.Config m) = "Configuration error: " ++ m) ∧
    (∀ m, UiTestError.message (.Discovery m) = "Test discovery failed: " ++ m) ∧
    (∀ m, UiTestError.message (.PlaywrightConnection m) =
      "Playwright MCP connection failed: " ++ m) ∧
    (∀ m, UiTestError.message (.Assertion m) = "Assertion failed: " ++ m) ∧
    (∀ d, UiTestError.message (.Timeout d) = "Test timeout after " ++ d.debugStr) ∧
    (∀ m d, UiTestError.Assertion m ≠ UiTestError.Timeout d) ∧
    (∀ a b, UiTestError.message (.Config a) ≠ UiTestError.message (.Discovery b)) ∧
    (∀ a b, UiTestError.message (.Config a) ≠
      UiTestError.message (.PlaywrightConnection b)) ∧
    (∀ a b, UiTestError.message (.Config a) ≠ UiTestError.message (.Assertion b)) ∧
    (∀ a d, UiTestError.message (.Config a) ≠ UiTestError.message (.Timeout d)) ∧
    (∀ a b, UiTestError.message (.Discovery a) ≠
      UiTestError.message (.PlaywrightConnection b)) ∧
    (∀ a b, UiTestError.message (.Discovery a) ≠ UiTestError.message (.Assertion b)) ∧
    (∀ a d, UiTestError.message (.Discovery a) ≠ UiTestError.message (.Timeout d)) ∧
    (∀ a b, UiTestError.message (.PlaywrightConnection a) ≠
      UiTestError.message (.Assertion b)) ∧
    (∀ a d, UiTestError.message (.PlaywrightConnection a) ≠
      UiTestError.message (.Timeout d)) ∧
    (∀ a d, UiTestError.message (.Assertion a) ≠ UiTestError.message (.Timeout d)) := by
  refine ⟨fun m => rfl, fun m => rfl, fun m => rfl, fun m => rfl, fun d => rfl,
    fun m d h => UiTestError.noConfusion h,
    fun a b => append_ne_of_take_ne _ _ a b 1 (by decide) (by decide) (by decide),
    fun a b => append_ne_of_take_ne _ _ a b 1 (by decide) (by decide) (by decide),
    fun a b => append_ne_of_take_ne _ _ a b 1 (by decide) (by decide) (by decide),
    fun a d => append_ne_of_take_ne _ _ a _ 1 (by decide) (by decide) (by decide),
    fun a b => append_ne_of_take_ne _ _ a b 1 (by decide) (by decide) (by decide),
    fun a b => append_ne_of_take_ne _ _ a b 1 (by decide) (by decide) (by decide),
    fun a d => append_ne_of_take_ne _ _ a _ 6 (by decide) (by decide) (by decide),
    fun a b => append_ne_of_take_ne _ _ a b 1 (by decide) (by decide) (by decide),
    fun a d => append_ne_of_take_ne _ _ a _ 1 (by decide) (by decide) (by decide),
    fun a d => append_ne_of_take_ne _ _ a _ 1 (by decide) (by decide) (by decide)⟩

/-- C7 counterexample: on a non-dry-run invocation pointing at a directory,
the program performs no discovery (its action trace is empty, containing in
particular no discover action for that path) and produces no RunSummary at
all, contrary to the claim that discovery returns an empty TestSuite and
the run produces a RunSummary with 0 tests; only the exit code 0 part
holds. -/
theorem c7_counterexample :
    (program ["empty_dir"]).summary = none ∧
    (program ["empty_dir"]).actions = [] ∧
    EngineAction.discover "empty_dir" ∉ (program ["empty_dir"]).actions ∧
    (program ["empty_dir"]).exitCode = 0 := by
  decide

/-- C7 (amended): for every non-dry-run invocation, whatever the test path,
the program exits 0 but performs no discovery and produces no run summary;
it prints the running banner for the path followed by the
not-yet-implemented notice. -/
theorem c7_no_discovery_no_summary (c : Cli) (h : c.dry_run = false) :
    (runCli c).exitCode = 0 ∧
    (runCli c).summary = none ∧
    (runCli c).actions = [] ∧
    Line.runningAt c.test_path ∈ (runCli c).output ∧
    Line.noteNotImplemented ∈ (runCli c).output := by
  refine ⟨rfl, rfl, rfl, ?_, ?_⟩ <;>
    cases hv : c.verbose <;> simp [runCli, runTrailer, h, hv]

/-- C7 witness: the amended theorem applied to a concrete non-dry-run
invocation. -/
theorem c7_no_discovery_no_summary_witness :
    (Cli.mk "empty_dir" false false).dry_run = false ∧
    (runCli (Cli.mk "empty_dir" false false)).summary = none :=
  ⟨rfl, (c7_no_discovery_no_summary (Cli.mk "empty_dir" false false) rfl).2.1⟩

/-- C8: an omitted TEST_PATH defaults to "." (and a supplied one is kept
verbatim, flags notwithstanding), and every line of output that names the
test path carries exactly the parsed path: the verbose header, the dry-run
preview and the running banner each embed `c.test_path`, whose rendered
text appends the path unchanged to the fixed message. -/
theorem c8_path_default_and_echo :
    parseArgs [] = ParseOutcome.ok (Cli.mk "." false false) ∧
    parseArgs ["-v", "sub/dir"] = ParseOutcome.ok (Cli.mk "sub/dir" true false) ∧
    (∀ c : Cli, c.verbose = true → Line.testPath c.test_path ∈ (runCli c).output) ∧
    (∀ c : Cli, c.dry_run = true → Line.dryRunMsg c.test_path ∈ (runCli c).output) ∧
    (∀ c : Cli, c.dry_run = false → Line.runningAt c.test_path ∈ (runCli c).output) ∧
    (∀ p, render (Line.testPath p) = "Test path: " ++ p) ∧
    (∀ p, render (Line.dryRunMsg p) = "Dry-run mode: would execute tests at " ++ p) ∧
    (∀ p, render (Line.runningAt p) = "Running tests at: " ++ p) := by
  refine ⟨by decide, by decide, ?_, ?_, ?_, fun p => rfl, fun p => rfl, fun p => rfl⟩ <;>
    intro c h <;>
    cases hn : c.dry_run <;> cases hv : c.verbose <;>
    simp_all [runCli, runTrailer]

/-- C8 witness: the echo statements applied to a concrete invocation. -/
theorem c8_path_default_and_echo_witness :
    (Cli.mk "sub/dir" true true).verbose = true ∧
    Line.testPath "sub/dir" ∈ (runCli (Cli.mk "sub/dir" true true)).output :=
  ⟨rfl, c8_path_default_and_echo.2.2.1 (Cli.mk "sub/dir" true true) rfl⟩

/-- C9: with verbose set, stdout starts with the "Verbose mode enabled"
line and then the test-path line, ahead of any dry-run or run output; with
verbose unset, neither the enabled line nor any test-path line appears;
and verbose composes with dry-run: with both set the output is exactly the
two verbose lines followed by the dry-run preview, with exit code 0. -/
theorem c9_verbose_lines (c : Cli) :
    (c.verbose = true →
      (runCli c).output =
        Line.verboseEnabled :: Line.testPath c.test_path ::
          (if c.dry_run then [Line.dryRunMsg c.test_path] else runTrailer c.test_path)) ∧
    (c.verbose = false →
      Line.verboseEnabled ∉ (runCli c).output ∧
      ∀ p, Line.testPath p ∉ (runCli c).output) ∧
    (c.verbose = true → c.dry_run = true →
      (runCli c).output =
        [Line.verboseEnabled, Line.testPath c.test_path, Line.dryRunMsg c.test_path] ∧
      (runCli c).exitCode = 0) := by
  refine ⟨fun hv => by simp [runCli, hv], fun hv => ?_, fun hv hn => ?_⟩
  · cases hn : c.dry_run <;> simp [runCli, runTrailer, hv, hn]
  · exact ⟨by simp [runCli, hv, hn], rfl⟩

/-- C9 witness: the composition statement applied to a concrete invocation
with both flags set. -/
theorem c9_verbose_lines_witness :
    (Cli.mk "tests/" true true).verbose = true ∧
    (runCli (Cli.mk "tests/" true true)).output =
      [Line.verboseEnabled, Line.testPath "tests/", Line.dryRunMsg "tests/"] :=
  ⟨rfl, ((c9_verbose_lines (Cli.mk "tests/" true true)).2.2 rfl rfl).1⟩

/-- C10: the program is deterministic: two invocations whose parsed
arguments agree on the test path and both flags produce the same stdout
lines (hence the same rendered text) and the same exit code. -/
theorem c10_deterministic (c c' : Cli)
    (h1 : c.test_path = c'.test_path)
    (h2 : c.verbose = c'.verbose)
    (h3 : c.dry_run = c'.dry_run) :
    (runCli c).output = (runCli c').output ∧
    (runCli c).output.map render = (runCli c').output.map render ∧
    (runCli c).exitCode = (runCli c').exitCode := by
  have he : c = c' := by cases c; cases c'; simp_all
  rw [he]
  exact ⟨rfl, rfl, rfl⟩

/-- C10 witness: the theorem applied to two identical concrete
invocations. -/
theorem c10_deterministic_witness :
    (runCli (Cli.mk "." false false)).output =
      (runCli (Cli.mk "." false false)).output :=
  (c10_deterministic (Cli.mk "." false false) (Cli.mk "." false false)
    rfl rfl rfl).1
